import Mathlib

/-!
Shallow embedding of `add_new_cfs.py` (CSV ingestion of characterization
factors) and proofs of its specification claims.

A CSV file is modelled after `csv.DictReader`: a header (list of field
names) and data rows, each row an association list from column name to an
optional cell value (`none` models Python's `None`, which `DictReader`
inserts for short rows).  Python's `float()` conversion is abstracted as a
parameter `conv : String → Option α` (success or failure), and the external
Brightway lookup `bd.get_node(name, code)` as `getNode : String → String →
Option Nat` (the node id, or a lookup failure).  Errors are values of
`PyErr`: `valueError` carries the exact message string the Python code
formats; `attributeError` models calling `.strip()` on `None`;
`lookupError` models the exception propagated from `bd.get_node`.
-/

/-- A data row as produced by `csv.DictReader`: column name to cell value,
`none` modelling Python `None`. -/
abbrev Row := List (String × Option String)

/-- A CSV file after reading: the header field names and the data rows. -/
structure CSVFile where
  header : List String
  rows : List Row
deriving Repr

/-- Python exceptions the parsing code can raise. -/
inductive PyErr where
  | valueError (msg : String)
  | attributeError
  | lookupError
deriving DecidableEq, Repr

/-- `row.get(key, default)` on a `DictReader` row: the stored cell (which
may be `none`, i.e. Python `None`) when the key is present, else the
default. -/
def rowGet : Row → String → Option String → Option String
  | [], _, dflt => dflt
  | (k, v) :: rest, key, dflt => if k = key then v else rowGet rest key dflt

/-- Python's `str.strip()`: drop leading and trailing whitespace. -/
def pyTrim (s : String) : String :=
  ⟨((s.data.dropWhile Char.isWhitespace).reverse.dropWhile
      Char.isWhitespace).reverse⟩

/-- Python's `str.split("::")`: split on every occurrence of the
two-character delimiter, keeping empty pieces (`""` splits to `[""]`).
The accumulator holds the current piece reversed. -/
def splitOnColons : List Char → List Char → List String
  | [], acc => [String.mk acc.reverse]
  | ':' :: ':' :: rest, acc => String.mk acc.reverse :: splitOnColons rest []
  | c :: rest, acc => splitOnColons rest (c :: acc)

/-- Python's `str.replace(" ", "_")`: the pattern is a single character, so
the replacement is a character map. -/
def replaceSpaces (s : String) : String :=
  ⟨s.data.map fun c => if c = ' ' then '_' else c⟩

/-- `v.strip()` where `v` may be Python `None`: an `AttributeError` on
`None`, else the trimmed string. -/
def pyStrip : Option String → Except PyErr String
  | none => .error .attributeError
  | some s => .ok (pyTrim s)

/-- `(v or "")` for an optional string `v`: Python's `or` yields `""` when
`v` is `None` or empty. -/
def orEmpty : Option String → String
  | none => ""
  | some s => s

/-- Error message of `_parse_categories` (source line 59). -/
def catErrMsg (ln : Nat) : String :=
  "Row " ++ toString ln ++ ": categories column is malformed."

/-- Error message of `_parse_cf` (source line 105). -/
def cfErrMsg (ln : Nat) : String :=
  "Row " ++ toString ln ++ ": cf column must contain a floating point value."

/-- Error message for a missing database name (source line 269). -/
def dbMissingMsg : String :=
  "Database name is missing in the \x27new_database\x27 column."

/-- Error message for a header with zero data rows (source line 265). -/
def emptyCsvMsg : String := "CSV file is empty (no data rows)."

/-- Error message for a database-name mismatch (source lines 286-289). -/
def dbMismatchMsg (ln : Nat) (expected found : String) : String :=
  "Row " ++ toString ln ++ ": Database name mismatch. Expected \x27" ++
    expected ++ "\x27, found \x27" ++ found ++
    "\x27. All rows must use the same database."

/-- `_parse_categories(raw, line_number)` (source lines 30-61).  The caller
passes `row.get("categories", "")`, so the argument may be Python `None`
(then `raw.strip()` raises `AttributeError`).  Empty/whitespace input gives
the empty tuple; splitting on `"::"` keeps the trimmed non-empty segments;
a non-empty input with no usable segment is a `ValueError`. -/
def parse_categories (raw : Option String) (line_number : Nat) :
    Except PyErr (List String) :=
  match raw with
  | none => .error .attributeError
  | some raw =>
    if pyTrim raw = "" then .ok []
    else
      let parts := (splitOnColons raw.data []).filterMap fun segment =>
        if pyTrim segment = "" then none else some (pyTrim segment)
      if parts = [] then .error (.valueError (catErrMsg line_number))
      else .ok parts

/-- `_sanitize_code(name)` (source lines 64-78): strip, then replace every
space with an underscore. -/
def sanitize_code (name : String) : String :=
  replaceSpaces (pyTrim name)

/-- `_parse_cf(raw, line_number)` (source lines 81-105) with `float()`
abstracted as `conv`.  `raw = none` models `float(None)`, a `TypeError`;
`conv s = none` models a `ValueError` from `float(s)`; both are caught and
re-raised as the same `ValueError` message. -/
def parse_cf {α : Type} (conv : String → Option α) (raw : Option String)
    (line_number : Nat) : Except PyErr α :=
  match raw with
  | none => .error (.valueError (cfErrMsg line_number))
  | some s =>
    match conv s with
    | none => .error (.valueError (cfErrMsg line_number))
    | some v => .ok v

/-- The seven required CSV columns (source lines 162-170 and 239-247). -/
def required_columns : List String :=
  ["new_database", "flow_name", "code", "unit", "CAS number", "categories", "cf"]

/-- The required columns absent from the header, in required-column order
(source lines 177 and 255). -/
def missing_columns (fieldnames : List String) : List String :=
  required_columns.filter fun column => ¬ column ∈ fieldnames

/-- The `ValueError` message for missing header columns (source lines
179-182 and 257-260). -/
def missingColumnsMsg (missing : List String) : String :=
  "CSV file must contain the following columns: " ++
    String.intercalate ", " required_columns ++
    ". Missing: " ++ String.intercalate ", " missing ++ "."

/-- One parsed flow record (the per-row dict built at source lines
192-202). -/
structure FlowRecord (α : Type) where
  database : String
  name : String
  code : String
  unit : String
  casNumber : String
  categories : List String
  cf : α
deriving DecidableEq, Repr

/-- The loop body of `parse_new_flows_from_csv` for one data row (source
lines 184-202), in the source's evaluation order: categories, cf, then the
remaining fields. -/
def parseFlowRow {α : Type} (conv : String → Option α) (row : Row)
    (row_index : Nat) : Except PyErr (FlowRecord α) :=
  match parse_categories (rowGet row "categories" (some "")) row_index with
  | .error e => .error e
  | .ok categories =>
    match parse_cf conv (rowGet row "cf" none) row_index with
    | .error e => .error e
    | .ok cf =>
      match pyStrip (rowGet row "flow_name" (some "")) with
      | .error e => .error e
      | .ok flow_name =>
        match pyStrip (rowGet row "code" (some "")) with
        | .error e => .error e
        | .ok code_raw =>
          match pyStrip (rowGet row "new_database" (some "")) with
          | .error e => .error e
          | .ok database =>
            match pyStrip (rowGet row "unit" (some "")) with
            | .error e => .error e
            | .ok unit =>
              .ok { database := database, name := flow_name,
                    code := if code_raw ≠ "" then code_raw
                            else sanitize_code flow_name,
                    unit := unit,
                    casNumber := pyTrim (orEmpty (rowGet row "CAS number" none)),
                    categories := categories, cf := cf }

/-- The row loop of `parse_new_flows_from_csv` (source line 184:
`enumerate(reader, start=2)`). -/
def parseFlowRows {α : Type} (conv : String → Option α) :
    List Row → Nat → Except PyErr (List (FlowRecord α))
  | [], _ => .ok []
  | row :: rest, row_index =>
    match parseFlowRow conv row row_index with
    | .error e => .error e
    | .ok record =>
      match parseFlowRows conv rest (row_index + 1) with
      | .error e => .error e
      | .ok records => .ok (record :: records)

/-- `parse_new_flows_from_csv` (source lines 108-204), on an already-read
file: header validation, then the row loop starting at line number 2. -/
def parse_new_flows_from_csv {α : Type} (conv : String → Option α)
    (file : CSVFile) : Except PyErr (List (FlowRecord α)) :=
  if missing_columns file.header = [] then parseFlowRows conv file.rows 2
  else
    .error (.valueError (missingColumnsMsg (missing_columns file.header)))

deriving instance DecidableEq for Except

/-- `bd.get_node(name=..., code=...)` wrapped: `none` models the
propagated lookup exception. -/
def getNodeE (getNode : String → String → Option Nat) (name code : String) :
    Except PyErr Nat :=
  match getNode name code with
  | some nodeId => .ok nodeId
  | none => .error .lookupError

/-- The per-row work shared by the first row (source lines 272-279) and the
loop body (source lines 291-301) of `parse_node_ids_and_cfs`: parse cf,
derive the code, look the node up.  Categories are not parsed here. -/
def resolveRow {α : Type} (conv : String → Option α)
    (getNode : String → String → Option Nat) (row : Row) (row_index : Nat) :
    Except PyErr (Nat × α) :=
  match parse_cf conv (rowGet row "cf" none) row_index with
  | .error e => .error e
  | .ok cf =>
    match pyStrip (rowGet row "flow_name" (some "")) with
    | .error e => .error e
    | .ok flow_name =>
      match pyStrip (rowGet row "code" (some "")) with
      | .error e => .error e
      | .ok code_raw =>
        match getNodeE getNode flow_name
            (if code_raw ≠ "" then code_raw else sanitize_code flow_name) with
        | .error e => .error e
        | .ok nodeId => .ok (nodeId, cf)

/-- The loop body of `parse_node_ids_and_cfs` for a row after the first
(source lines 282-301): the database-consistency check, then the shared
per-row work. -/
def parseNodeRow {α : Type} (conv : String → Option α)
    (getNode : String → String → Option Nat) (database_name : String)
    (row : Row) (row_index : Nat) : Except PyErr (Nat × α) :=
  match pyStrip (rowGet row "new_database" (some "")) with
  | .error e => .error e
  | .ok row_database =>
    if row_database ≠ database_name then
      .error (.valueError (dbMismatchMsg row_index database_name row_database))
    else resolveRow conv getNode row row_index

/-- The loop of `parse_node_ids_and_cfs` over the rows after the first
(source line 282: `enumerate(reader, start=3)`). -/
def parseNodeRows {α : Type} (conv : String → Option α)
    (getNode : String → String → Option Nat) (database_name : String) :
    List Row → Nat → Except PyErr (List (Nat × α))
  | [], _ => .ok []
  | row :: rest, row_index =>
    match parseNodeRow conv getNode database_name row row_index with
    | .error e => .error e
    | .ok pair =>
      match parseNodeRows conv getNode database_name rest (row_index + 1) with
      | .error e => .error e
      | .ok pairs => .ok (pair :: pairs)

/-- `parse_node_ids_and_cfs` (source lines 207-303) on an already-read
file: header validation, empty-file check, database name from the first
row, first-row resolution, then the loop from line number 3. -/
def parse_node_ids_and_cfs {α : Type} (conv : String → Option α)
    (getNode : String → String → Option Nat) (file : CSVFile) :
    Except PyErr (List (Nat × α)) :=
  if missing_columns file.header = [] then
    match file.rows with
    | [] => .error (.valueError emptyCsvMsg)
    | first_row :: rest =>
      match pyStrip (rowGet first_row "new_database" (some "")) with
      | .error e => .error e
      | .ok database_name =>
        if database_name = "" then .error (.valueError dbMissingMsg)
        else
          match resolveRow conv getNode first_row 2 with
          | .error e => .error e
          | .ok pair =>
            match parseNodeRows conv getNode database_name rest 3 with
            | .error e => .error e
            | .ok pairs => .ok (pair :: pairs)
  else
    .error (.valueError (missingColumnsMsg (missing_columns file.header)))

/-!  Concrete fixtures used by witnesses and counterexamples. -/

/-- A concrete stand-in for `float()`: accepts `"1.0"` as 1, rejects
everything else (as `float("not_a_number")` would). -/
def convEx : String → Option Nat :=
  fun s => if s = "1.0" then some 1 else none

/-- A concrete stand-in for `bd.get_node`: every (name, code) resolves to
node id 7. -/
def getNodeEx : String → String → Option Nat := fun _ _ => some 7

/-- A well-formed data row: empty code column, flow name with spaces. -/
def rowGood : Row :=
  [("new_database", some "db"), ("flow_name", some "Foo Bar"),
   ("code", some ""), ("unit", some "kg"), ("CAS number", some "1-2-3"),
   ("categories", some "air::low urban"), ("cf", some "1.0")]

/-- A row whose categories text is malformed (`"::"` has no usable
segment) but whose cf is convertible. -/
def rowCatsBad : Row :=
  [("new_database", some "db"), ("flow_name", some "Foo"),
   ("code", some "foo"), ("unit", some "kg"), ("CAS number", some ""),
   ("categories", some "::"), ("cf", some "1.0")]

/-- A row whose cf text is unconvertible but whose categories are fine. -/
def rowCfBad : Row :=
  [("new_database", some "db"), ("flow_name", some "Foo"),
   ("code", some "foo"), ("unit", some "kg"), ("CAS number", some ""),
   ("categories", some "air::x"), ("cf", some "not_a_number")]

/-- A row whose categories text is malformed and whose cf text is also
unconvertible. -/
def rowBothBad : Row :=
  [("new_database", some "db"), ("flow_name", some "Foo"),
   ("code", some "foo"), ("unit", some "kg"), ("CAS number", some ""),
   ("categories", some "::"), ("cf", some "not_a_number")]

/-- A well-formed row that targets a different database than `rowGood`. -/
def rowOtherDb : Row :=
  [("new_database", some "other"), ("flow_name", some "Foo Bar"),
   ("code", some ""), ("unit", some "kg"), ("CAS number", some "1-2-3"),
   ("categories", some "air::low urban"), ("cf", some "1.0")]

/-- A well-formed row whose `new_database` cell is empty. -/
def rowEmptyDb : Row :=
  [("new_database", some "  "), ("flow_name", some "Foo Bar"),
   ("code", some ""), ("unit", some "kg"), ("CAS number", some "1-2-3"),
   ("categories", some "air::low urban"), ("cf", some "1.0")]

/-- A two-row file over one database, fully well-formed. -/
def fileTwo : CSVFile := ⟨required_columns, [rowGood, rowGood]⟩

/-- `rowGood` with an additional, ignored `type` column. -/
def rowGoodType : Row :=
  [("new_database", some "db"), ("flow_name", some "Foo Bar"),
   ("code", some ""), ("unit", some "kg"), ("CAS number", some "1-2-3"),
   ("categories", some "air::low urban"), ("cf", some "1.0"),
   ("type", some "emission")]

/-- A header that lacks the required `cf` column. -/
def headerNoCf : List String :=
  ["new_database", "flow_name", "code", "unit", "CAS number", "categories",
   "type"]

/-!  Helper lemmas shared by the claim theorems. -/

/-- `pyTrim` rewritten through Mathlib's `rdropWhile`. -/
theorem pyTrim_mk (l : List Char) :
    pyTrim ⟨l⟩ =
      ⟨(l.dropWhile Char.isWhitespace).rdropWhile Char.isWhitespace⟩ :=
  rfl

/-- The head of a `dropWhile` result does not satisfy the predicate. -/
theorem dropWhile_head_false {α : Type} (p : α → Bool) :
    ∀ (l : List α) (x : α) (xs : List α),
      l.dropWhile p = x :: xs → p x = false := by
  intro l
  induction l with
  | nil => intro x xs h; simp at h
  | cons a as ih =>
    intro x xs h
    rw [List.dropWhile_cons] at h
    by_cases hp : p a
    · rw [if_pos hp] at h; exact ih x xs h
    · rw [if_neg hp] at h
      cases h
      simpa using hp

/-- Stripping an already-stripped string changes nothing. -/
theorem pyTrim_idem (s : String) : pyTrim (pyTrim s) = pyTrim s := by
  obtain ⟨l⟩ := s
  rw [pyTrim_mk, pyTrim_mk]
  congr 1
  have hdrop :
      ((l.dropWhile Char.isWhitespace).rdropWhile
          Char.isWhitespace).dropWhile Char.isWhitespace =
        (l.dropWhile Char.isWhitespace).rdropWhile Char.isWhitespace := by
    cases hb : (l.dropWhile Char.isWhitespace).rdropWhile Char.isWhitespace with
    | nil => simp
    | cons x b' =>
      obtain ⟨t, ht⟩ :=
        List.rdropWhile_prefix Char.isWhitespace (l.dropWhile Char.isWhitespace)
      rw [hb] at ht
      have hx : Char.isWhitespace x = false :=
        dropWhile_head_false Char.isWhitespace l x (b' ++ t) ht.symm
      simp [List.dropWhile_cons, hx]
  rw [hdrop, List.rdropWhile_idempotent]

/-- The `filterMap` in `parse_categories` is the same as mapping `pyTrim`
and keeping the non-empty results. -/
theorem filterMap_trim_eq (l : List String) :
    (l.filterMap fun segment =>
        if pyTrim segment = "" then none else some (pyTrim segment)) =
      (l.map pyTrim).filter (fun s => s ≠ "") := by
  induction l with
  | nil => rfl
  | cons x xs ih =>
    by_cases hx : pyTrim x = "" <;>
      simp [List.filterMap_cons, List.filter_cons, hx, ih]

/-- A successful `parseFlowRows` run yields one record per row, in order:
the `i`-th record is the parse of the `i`-th row at line `row_index + i`. -/
theorem parseFlowRows_spec {α : Type} (conv : String → Option α) :
    ∀ (rows : List Row) (row_index : Nat) (recs : List (FlowRecord α)),
      parseFlowRows conv rows row_index = .ok recs →
      recs.length = rows.length ∧
        ∀ (i : Nat) (hi : i < rows.length) (hi' : i < recs.length),
          parseFlowRow conv (rows.get ⟨i, hi⟩) (row_index + i) =
            .ok (recs.get ⟨i, hi'⟩) := by
  intro rows
  induction rows with
  | nil =>
    intro row_index recs h
    simp only [parseFlowRows] at h
    cases h
    exact ⟨rfl, fun i hi _ => absurd hi (Nat.not_lt_zero i)⟩
  | cons row rest ih =>
    intro row_index recs h
    simp only [parseFlowRows] at h
    cases h1 : parseFlowRow conv row row_index with
    | error e => rw [h1] at h; cases h
    | ok record =>
      rw [h1] at h
      cases h2 : parseFlowRows conv rest (row_index + 1) with
      | error e => rw [h2] at h; cases h
      | ok records =>
        rw [h2] at h
        cases h
        obtain ⟨hlen, hget⟩ := ih (row_index + 1) records h2
        refine ⟨by simp [hlen], ?_⟩
        intro i hi hi'
        cases i with
        | zero => simpa using h1
        | succ j =>
          have hj : j < rest.length := by simpa using hi
          have hj' : j < records.length := by simpa using hi'
          have := hget j hj hj'
          simpa [Nat.add_comm, Nat.add_assoc, Nat.add_left_comm] using this

/-- A successful `parseNodeRows` run yields one pair per row, in order. -/
theorem parseNodeRows_spec {α : Type} (conv : String → Option α)
    (getNode : String → String → Option Nat) (database_name : String) :
    ∀ (rows : List Row) (row_index : Nat) (pairs : List (Nat × α)),
      parseNodeRows conv getNode database_name rows row_index = .ok pairs →
      pairs.length = rows.length ∧
        ∀ (i : Nat) (hi : i < rows.length) (hi' : i < pairs.length),
          parseNodeRow conv getNode database_name (rows.get ⟨i, hi⟩)
              (row_index + i) =
            .ok (pairs.get ⟨i, hi'⟩) := by
  intro rows
  induction rows with
  | nil =>
    intro row_index pairs h
    simp only [parseNodeRows] at h
    cases h
    exact ⟨rfl, fun i hi _ => absurd hi (Nat.not_lt_zero i)⟩
  | cons row rest ih =>
    intro row_index pairs h
    simp only [parseNodeRows] at h
    cases h1 : parseNodeRow conv getNode database_name row row_index with
    | error e => rw [h1] at h; cases h
    | ok pair =>
      rw [h1] at h
      cases h2 : parseNodeRows conv getNode database_name rest (row_index + 1) with
      | error e => rw [h2] at h; cases h
      | ok rest_pairs =>
        rw [h2] at h
        cases h
        obtain ⟨hlen, hget⟩ := ih (row_index + 1) rest_pairs h2
        refine ⟨by simp [hlen], ?_⟩
        intro i hi hi'
        cases i with
        | zero => simpa using h1
        | succ j =>
          have hj : j < rest.length := by simpa using hi
          have hj' : j < rest_pairs.length := by simpa using hi'
          have := hget j hj hj'
          simpa [Nat.add_comm, Nat.add_assoc, Nat.add_left_comm] using this

/-- `pyStrip` succeeds exactly on present cells, returning the trim. -/
theorem pyStrip_ok_inv (x : Option String) (y : String)
    (h : pyStrip x = .ok y) : ∃ s, x = some s ∧ y = pyTrim s := by
  cases x with
  | none => cases h
  | some s =>
    refine ⟨s, rfl, ?_⟩
    simp only [pyStrip] at h
    cases h
    rfl

/-- Inversion of a successful `parseFlowRow`: every field of the record in
terms of the row's cells. -/
theorem parseFlowRow_ok_inv {α : Type} (conv : String → Option α) (row : Row)
    (row_index : Nat) (r : FlowRecord α)
    (h : parseFlowRow conv row row_index = .ok r) :
    ∃ cats cf fn rc db un,
      parse_categories (rowGet row "categories" (some "")) row_index =
          .ok cats ∧
      parse_cf conv (rowGet row "cf" none) row_index = .ok cf ∧
      rowGet row "flow_name" (some "") = some fn ∧
      rowGet row "code" (some "") = some rc ∧
      rowGet row "new_database" (some "") = some db ∧
      rowGet row "unit" (some "") = some un ∧
      r = { database := pyTrim db, name := pyTrim fn,
            code := if pyTrim rc ≠ "" then pyTrim rc
                    else sanitize_code (pyTrim fn),
            unit := pyTrim un,
            casNumber := pyTrim (orEmpty (rowGet row "CAS number" none)),
            categories := cats, cf := cf } := by
  unfold parseFlowRow at h
  cases h1 : parse_categories (rowGet row "categories" (some "")) row_index with
  | error e => rw [h1] at h; cases h
  | ok cats =>
    rw [h1] at h
    cases h2 : parse_cf conv (rowGet row "cf" none) row_index with
    | error e => rw [h2] at h; cases h
    | ok cf =>
      rw [h2] at h
      cases h3 : pyStrip (rowGet row "flow_name" (some "")) with
      | error e => rw [h3] at h; cases h
      | ok flow_name =>
        rw [h3] at h
        cases h4 : pyStrip (rowGet row "code" (some "")) with
        | error e => rw [h4] at h; cases h
        | ok code_raw =>
          rw [h4] at h
          cases h5 : pyStrip (rowGet row "new_database" (some "")) with
          | error e => rw [h5] at h; cases h
          | ok database =>
            rw [h5] at h
            cases h6 : pyStrip (rowGet row "unit" (some "")) with
            | error e => rw [h6] at h; cases h
            | ok unit =>
              rw [h6] at h
              cases h
              obtain ⟨fn, hfn, hfn'⟩ := pyStrip_ok_inv _ _ h3
              obtain ⟨rc, hrc, hrc'⟩ := pyStrip_ok_inv _ _ h4
              obtain ⟨db, hdb, hdb'⟩ := pyStrip_ok_inv _ _ h5
              obtain ⟨un, hun, hun'⟩ := pyStrip_ok_inv _ _ h6
              subst hfn' hrc' hdb' hun'
              exact ⟨cats, cf, fn, rc, db, un, rfl, rfl, hfn, hrc, hdb, hun, rfl⟩

/-- The categories error message is never the cf error message (the two
fixed suffixes have different lengths). -/
theorem catErr_ne_cfErr (ln : Nat) : catErrMsg ln ≠ cfErrMsg ln := by
  intro h
  have hl := congrArg String.length h
  simp only [catErrMsg, cfErrMsg, String.length_append] at hl
  have hc : (": categories column is malformed.").length = 33 := rfl
  have hd : (": cf column must contain a floating point value.").length = 48 := rfl
  rw [hc, hd] at hl
  omega

/-- A successful `parse_new_flows_from_csv` run passed header validation
and is exactly the row loop. -/
theorem parse_flows_ok_inv {α : Type} (conv : String → Option α)
    (file : CSVFile) (recs : List (FlowRecord α))
    (h : parse_new_flows_from_csv conv file = .ok recs) :
    missing_columns file.header = [] ∧
      parseFlowRows conv file.rows 2 = .ok recs := by
  by_cases hm : missing_columns file.header = []
  · refine ⟨hm, ?_⟩
    rw [parse_new_flows_from_csv, if_pos hm] at h
    exact h
  · rw [parse_new_flows_from_csv, if_neg hm] at h
    cases h

/-- `parse_cf` only ever raises the cf validation message. -/
theorem parse_cf_err_inv {α : Type} (conv : String → Option α)
    (raw : Option String) (row_index : Nat) (e : PyErr)
    (h : parse_cf conv raw row_index = .error e) :
    e = .valueError (cfErrMsg row_index) := by
  unfold parse_cf at h
  split at h
  · cases h; rfl
  · split at h
    · cases h; rfl
    · cases h

/-- `pyStrip` only ever raises `AttributeError`, and only on `None`. -/
theorem pyStrip_err_inv (x : Option String) (e : PyErr)
    (h : pyStrip x = .error e) : e = .attributeError ∧ x = none := by
  cases x with
  | none => cases h; exact ⟨rfl, rfl⟩
  | some s => cases h

/-- `getNodeE` only ever raises the lookup failure. -/
theorem getNodeE_err_inv (getNode : String → String → Option Nat)
    (name code : String) (e : PyErr)
    (h : getNodeE getNode name code = .error e) : e = .lookupError := by
  unfold getNodeE at h
  split at h
  · cases h
  · cases h; rfl

/-- Unfolding `parse_node_ids_and_cfs` on a valid header with no data
rows. -/
theorem parse_node_eq_nil {α : Type} (conv : String → Option α)
    (getNode : String → String → Option Nat) (header : List String)
    (hm : missing_columns header = []) :
    parse_node_ids_and_cfs conv getNode ⟨header, []⟩ =
      .error (.valueError emptyCsvMsg) := by
  simp [parse_node_ids_and_cfs, hm]

/-- Unfolding `parse_node_ids_and_cfs` on a valid header with at least one
data row. -/
theorem parse_node_eq_cons {α : Type} (conv : String → Option α)
    (getNode : String → String → Option Nat) (header : List String)
    (first_row : Row) (rest : List Row)
    (hm : missing_columns header = []) :
    parse_node_ids_and_cfs conv getNode ⟨header, first_row :: rest⟩ =
      match pyStrip (rowGet first_row "new_database" (some "")) with
      | .error e => .error e
      | .ok database_name =>
        if database_name = "" then .error (.valueError dbMissingMsg)
        else
          match resolveRow conv getNode first_row 2 with
          | .error e => .error e
          | .ok pair =>
            match parseNodeRows conv getNode database_name rest 3 with
            | .error e => .error e
            | .ok pairs => .ok (pair :: pairs) := by
  simp only [parse_node_ids_and_cfs, hm, if_pos]

/-- Inversion of a successful `parse_node_ids_and_cfs` run: valid header,
at least one data row, a non-empty established database name, a resolved
first row, and a successful loop over the remaining rows. -/
theorem parse_node_ok_inv {α : Type} (conv : String → Option α)
    (getNode : String → String → Option Nat) (file : CSVFile)
    (pairs : List (Nat × α))
    (h : parse_node_ids_and_cfs conv getNode file = .ok pairs) :
    missing_columns file.header = [] ∧
      ∃ first_row rest d p ps,
        file.rows = first_row :: rest ∧
        rowGet first_row "new_database" (some "") = some d ∧
        pyTrim d ≠ "" ∧
        resolveRow conv getNode first_row 2 = .ok p ∧
        parseNodeRows conv getNode (pyTrim d) rest 3 = .ok ps ∧
        pairs = p :: ps := by
  obtain ⟨header, rows⟩ := file
  by_cases hm : missing_columns header = []
  · refine ⟨hm, ?_⟩
    cases rows with
    | nil => rw [parse_node_eq_nil conv getNode header hm] at h; cases h
    | cons first_row rest =>
      rw [parse_node_eq_cons conv getNode header first_row rest hm] at h
      split at h
      · cases h
      next database_name heq =>
        split at h
        · cases h
        next hne =>
          split at h
          · cases h
          next p heq2 =>
            split at h
            · cases h
            next ps heq3 =>
              cases h
              obtain ⟨d, hcell, hval⟩ := pyStrip_ok_inv _ _ heq
              subst hval
              exact ⟨first_row, rest, d, p, ps, rfl, hcell, hne, heq2, heq3,
                rfl⟩
  · rw [parse_node_ids_and_cfs] at h
    rw [if_neg hm] at h
    cases h

/-- The only errors `resolveRow` can raise: the cf validation message, an
`AttributeError` from a `None` cell, or a propagated lookup failure.  In
particular it never raises the categories validation error. -/
theorem resolveRow_err_inv {α : Type} (conv : String → Option α)
    (getNode : String → String → Option Nat) (row : Row) (row_index : Nat)
    (e : PyErr) (h : resolveRow conv getNode row row_index = .error e) :
    e = .valueError (cfErrMsg row_index) ∨ e = .attributeError ∨
      e = .lookupError := by
  unfold resolveRow at h
  split at h
  case h_1 e1 heq => cases h; exact Or.inl (parse_cf_err_inv conv _ _ _ heq)
  case h_2 cf heq =>
    split at h
    case h_1 e2 heq2 =>
      cases h; exact Or.inr (Or.inl (pyStrip_err_inv _ _ heq2).1)
    case h_2 fn heq2 =>
      split at h
      case h_1 e3 heq3 =>
        cases h; exact Or.inr (Or.inl (pyStrip_err_inv _ _ heq3).1)
      case h_2 cr heq3 =>
        split at h
        case h_1 e4 heq4 =>
          cases h; exact Or.inr (Or.inr (getNodeE_err_inv _ _ _ _ heq4))
        case h_2 nid heq4 => cases h

/-- A categories failure in a row aborts that row with that error. -/
theorem parseFlowRow_cat_err {α : Type} (conv : String → Option α)
    (row : Row) (row_index : Nat) (e : PyErr)
    (hcats : parse_categories (rowGet row "categories" (some "")) row_index =
      .error e) :
    parseFlowRow conv row row_index = .error e := by
  simp only [parseFlowRow, hcats]

/-- With categories fine, a cf failure aborts the row with that error. -/
theorem parseFlowRow_cf_err {α : Type} (conv : String → Option α) (row : Row)
    (row_index : Nat) (cats : List String) (e : PyErr)
    (hcats : parse_categories (rowGet row "categories" (some "")) row_index =
      .ok cats)
    (hcf : parse_cf conv (rowGet row "cf" none) row_index = .error e) :
    parseFlowRow conv row row_index = .error e := by
  simp only [parseFlowRow, hcats, hcf]

/-- A row failure aborts the whole row loop with that error. -/
theorem parseFlowRows_cons_err {α : Type} (conv : String → Option α)
    (row : Row) (rest : List Row) (row_index : Nat) (e : PyErr)
    (h : parseFlowRow conv row row_index = .error e) :
    parseFlowRows conv (row :: rest) row_index = .error e := by
  simp only [parseFlowRows, h]

/-- Either `parse_cf` failure mode — a missing cell or a failed
conversion — produces the same validation error. -/
theorem parse_cf_bad {α : Type} (conv : String → Option α)
    (raw : Option String) (row_index : Nat)
    (h : raw = none ∨ ∃ s, raw = some s ∧ conv s = none) :
    parse_cf conv raw row_index =
      .error (.valueError (cfErrMsg row_index)) := by
  rcases h with hnone | ⟨s, hs, hconv⟩
  · rw [hnone]
    rfl
  · rw [hs]
    simp only [parse_cf, hconv]

/-!  The claim theorems. -/

/-- C4: `_parse_categories` yields the empty tuple on empty or
whitespace-only input; when the input has at least one non-blank `::`
segment it yields the order-preserving tuple of trimmed non-empty
segments; and when the input is not whitespace-only yet yields zero
non-blank segments it fails with the validation error citing the row's
line number. -/
theorem c4_categories_parsing (raw : String) (ln : Nat) :
    (pyTrim raw = "" → parse_categories (some raw) ln = .ok []) ∧
    (pyTrim raw ≠ "" →
      ((splitOnColons raw.data []).map pyTrim).filter (fun s => s ≠ "") ≠
        [] →
      parse_categories (some raw) ln =
        .ok (((splitOnColons raw.data []).map pyTrim).filter
          (fun s => s ≠ ""))) ∧
    (pyTrim raw ≠ "" →
      ((splitOnColons raw.data []).map pyTrim).filter (fun s => s ≠ "") =
        [] →
      parse_categories (some raw) ln =
        .error (.valueError (catErrMsg ln))) := by
  refine ⟨fun h => ?_, fun h1 h2 => ?_, fun h1 h2 => ?_⟩
  · simp [parse_categories, h]
  · have h2' : ¬(((splitOnColons raw.data []).filterMap fun segment =>
        if pyTrim segment = "" then none else some (pyTrim segment)) =
          []) := by
      rw [filterMap_trim_eq]; exact h2
    simp only [parse_categories]
    rw [if_neg h1, if_neg h2', filterMap_trim_eq]
  · have h2' : ((splitOnColons raw.data []).filterMap fun segment =>
        if pyTrim segment = "" then none else some (pyTrim segment)) =
          [] := by
      rw [filterMap_trim_eq]; exact h2
    simp only [parse_categories]
    rw [if_neg h1, if_pos h2']

/-- Witness for C4 at concrete inputs: whitespace-only, a two-segment
path with surrounding blanks, and the malformed `"::"`. -/
theorem c4_witness :
    parse_categories (some "   ") 2 = .ok [] ∧
    parse_categories (some " air :: low urban ") 2 =
      .ok ["air", "low urban"] ∧
    parse_categories (some "::") 3 = .error (.valueError (catErrMsg 3)) :=
  ⟨(c4_categories_parsing "   " 2).1 (by decide),
   ((c4_categories_parsing " air :: low urban " 2).2.1 (by decide)
       (by decide)).trans (by decide),
   (c4_categories_parsing "::" 3).2.2 (by decide) (by decide)⟩

/-- C6: if any required column is missing from the header, both operations
fail with the same schema error; the missing part of the message
comma-joins exactly the absent required columns, in required-column
order (the missing list is an order-preserving sub-list of the required
columns containing precisely the required names absent from the
header). -/
theorem c6_missing_columns_error {α : Type} (conv : String → Option α)
    (getNode : String → String → Option Nat) (file : CSVFile)
    (h : missing_columns file.header ≠ []) :
    parse_new_flows_from_csv conv file =
        .error
          (.valueError (missingColumnsMsg (missing_columns file.header))) ∧
    parse_node_ids_and_cfs conv getNode file =
        .error
          (.valueError (missingColumnsMsg (missing_columns file.header))) ∧
    List.Sublist (missing_columns file.header) required_columns ∧
    (∀ c, c ∈ missing_columns file.header ↔
      c ∈ required_columns ∧ c ∉ file.header) ∧
    missingColumnsMsg (missing_columns file.header) =
      "CSV file must contain the following columns: new_database, flow_name, code, unit, CAS number, categories, cf. Missing: " ++
        String.intercalate ", " (missing_columns file.header) ++ "." := by
  refine ⟨?_, ?_, ?_, ?_, ?_⟩
  · rw [parse_new_flows_from_csv, if_neg h]
  · rw [parse_node_ids_and_cfs, if_neg h]
  · exact List.filter_sublist _
  · intro c
    simp [missing_columns, List.mem_filter]
  · rw [missingColumnsMsg,
      (by decide : "CSV file must contain the following columns: " ++
          String.intercalate ", " required_columns ++ ". Missing: " =
        "CSV file must contain the following columns: new_database, flow_name, code, unit, CAS number, categories, cf. Missing: ")]

/-- Witness for C6: a header whose only absent required column is `cf`. -/
theorem c6_witness :
    parse_new_flows_from_csv convEx ⟨headerNoCf, []⟩ =
        .error
          (.valueError (missingColumnsMsg (missing_columns headerNoCf))) ∧
    missing_columns headerNoCf = ["cf"] :=
  ⟨(c6_missing_columns_error convEx getNodeEx ⟨headerNoCf, []⟩
      (by decide)).1,
   by decide⟩

/-- C7: a missing cf cell and a failed conversion produce the identical
validation error "Row N: cf column must contain a floating point value.";
with the header counting as line 1, a bad cf in the first data row is
reported as line 2 by `parse_new_flows_from_csv`. -/
theorem c7_cf_validation_error {α : Type} (conv : String → Option α) :
    (∀ ln, parse_cf conv none ln = .error (.valueError (cfErrMsg ln))) ∧
    (∀ ln s, conv s = none →
      parse_cf conv (some s) ln = .error (.valueError (cfErrMsg ln))) ∧
    (∀ ln, cfErrMsg ln =
      "Row " ++ toString ln ++
        ": cf column must contain a floating point value.") ∧
    (∀ (file : CSVFile) (row : Row) (rest : List Row) (cats : List String),
      missing_columns file.header = [] →
      file.rows = row :: rest →
      parse_categories (rowGet row "categories" (some "")) 2 = .ok cats →
      (rowGet row "cf" none = none ∨
        ∃ s, rowGet row "cf" none = some s ∧ conv s = none) →
      parse_new_flows_from_csv conv file =
        .error (.valueError (cfErrMsg 2))) := by
  refine ⟨fun ln => rfl, fun ln s h => ?_, fun ln => rfl, ?_⟩
  · exact parse_cf_bad conv (some s) ln (Or.inr ⟨s, rfl, h⟩)
  · intro file row rest cats hm hrows hcats hcf
    rw [parse_new_flows_from_csv, if_pos hm, hrows]
    exact parseFlowRows_cons_err conv row rest 2 _
      (parseFlowRow_cf_err conv row 2 cats _ hcats
        (parse_cf_bad conv _ 2 hcf))

/-- Witness for C7: the missing-cell and `"not_a_number"` cases at line 5,
and a file whose first data row has an unconvertible cf, reported at
line 2. -/
theorem c7_witness :
    parse_cf convEx none 5 = .error (.valueError (cfErrMsg 5)) ∧
    parse_cf convEx (some "not_a_number") 5 =
      .error (.valueError (cfErrMsg 5)) ∧
    parse_new_flows_from_csv convEx ⟨required_columns, [rowCfBad]⟩ =
      .error (.valueError (cfErrMsg 2)) :=
  ⟨(c7_cf_validation_error convEx).1 5,
   (c7_cf_validation_error convEx).2.1 5 "not_a_number" (by decide),
   (c7_cf_validation_error convEx).2.2.2 ⟨required_columns, [rowCfBad]⟩
     rowCfBad [] ["air", "x"] (by decide) rfl (by decide)
     (Or.inr ⟨"not_a_number", rfl, by decide⟩)⟩

/-- C8: on a valid header with zero data rows, `parse_node_ids_and_cfs`
fails with the schema error rather than returning an empty list; its
message extends the phrase "CSV file is empty". -/
theorem c8_empty_file_error {α : Type} (conv : String → Option α)
    (getNode : String → String → Option Nat) (file : CSVFile)
    (hm : missing_columns file.header = []) (hrows : file.rows = []) :
    parse_node_ids_and_cfs conv getNode file =
        .error (.valueError emptyCsvMsg) ∧
    emptyCsvMsg = "CSV file is empty" ++ " (no data rows)." := by
  obtain ⟨header, rows⟩ := file
  subst hrows
  exact ⟨parse_node_eq_nil conv getNode header hm, by decide⟩

/-- Witness for C8: the required columns as header, no data rows. -/
theorem c8_witness :
    parse_node_ids_and_cfs convEx getNodeEx ⟨required_columns, []⟩ =
      .error (.valueError emptyCsvMsg) :=
  (c8_empty_file_error convEx getNodeEx ⟨required_columns, []⟩ (by decide)
    rfl).1

/-- A not-whitespace-only categories text with no usable segment raises
the categories validation error (the malformed branch of
`_parse_categories`). -/
theorem parse_categories_malformed (raw : String) (ln : Nat)
    (h1 : pyTrim raw ≠ "")
    (h2 : ((splitOnColons raw.data []).map pyTrim).filter (fun s => s ≠ "") =
      []) :
    parse_categories (some raw) ln = .error (.valueError (catErrMsg ln)) := by
  have h2' : ((splitOnColons raw.data []).filterMap fun segment =>
      if pyTrim segment = "" then none else some (pyTrim segment)) = [] := by
    rw [filterMap_trim_eq]; exact h2
  simp only [parse_categories]
  rw [if_neg h1, if_pos h2']

/-- C10: within a data row, categories are validated before cf: when the
categories text is malformed and the cf text is also unconvertible, the
row fails with the categories validation error, which differs from the cf
error; at file level a first row of this shape makes
`parse_new_flows_from_csv` report the categories error for line 2. -/
theorem c10_categories_before_cf {α : Type} (conv : String → Option α) :
    (∀ (row : Row) (ln : Nat) (rawc : String),
      rowGet row "categories" (some "") = some rawc →
      pyTrim rawc ≠ "" →
      ((splitOnColons rawc.data []).map pyTrim).filter (fun s => s ≠ "") =
        [] →
      (rowGet row "cf" none = none ∨
        ∃ s, rowGet row "cf" none = some s ∧ conv s = none) →
      parseFlowRow conv row ln = .error (.valueError (catErrMsg ln)) ∧
        (.error (.valueError (catErrMsg ln)) :
            Except PyErr (FlowRecord α)) ≠
          .error (.valueError (cfErrMsg ln))) ∧
    (∀ (file : CSVFile) (row : Row) (rest : List Row) (rawc : String),
      missing_columns file.header = [] →
      file.rows = row :: rest →
      rowGet row "categories" (some "") = some rawc →
      pyTrim rawc ≠ "" →
      ((splitOnColons rawc.data []).map pyTrim).filter (fun s => s ≠ "") =
        [] →
      (rowGet row "cf" none = none ∨
        ∃ s, rowGet row "cf" none = some s ∧ conv s = none) →
      parse_new_flows_from_csv conv file =
        .error (.valueError (catErrMsg 2))) := by
  have key : ∀ (row : Row) (ln : Nat) (rawc : String),
      rowGet row "categories" (some "") = some rawc →
      pyTrim rawc ≠ "" →
      ((splitOnColons rawc.data []).map pyTrim).filter (fun s => s ≠ "") =
        [] →
      parseFlowRow conv row ln = .error (.valueError (catErrMsg ln)) := by
    intro row ln rawc hc h1 h2
    refine parseFlowRow_cat_err conv row ln _ ?_
    rw [hc]
    exact parse_categories_malformed rawc ln h1 h2
  constructor
  · intro row ln rawc hc h1 h2 _
    refine ⟨key row ln rawc hc h1 h2, ?_⟩
    simp only [ne_eq, Except.error.injEq, PyErr.valueError.injEq]
    exact catErr_ne_cfErr ln
  · intro file row rest rawc hm hrows hc h1 h2 _
    rw [parse_new_flows_from_csv, if_pos hm, hrows]
    exact parseFlowRows_cons_err conv row rest 2 _
      (key row 2 rawc hc h1 h2)

/-- Witness for C10: a row whose categories are `"::"` and whose cf is
`"not_a_number"` fails with the categories error, not the cf error. -/
theorem c10_witness :
    parseFlowRow convEx rowBothBad 2 =
        .error (.valueError (catErrMsg 2)) ∧
    parse_new_flows_from_csv convEx ⟨required_columns, [rowBothBad]⟩ =
      .error (.valueError (catErrMsg 2)) :=
  ⟨((c10_categories_before_cf convEx).1 rowBothBad 2 "::" rfl (by decide)
      (by decide) (Or.inr ⟨"not_a_number", rfl, by decide⟩)).1,
   (c10_categories_before_cf convEx).2 ⟨required_columns, [rowBothBad]⟩
     rowBothBad [] "::" (by decide) rfl rfl (by decide) (by decide)
     (Or.inr ⟨"not_a_number", rfl, by decide⟩)⟩

/-- C2: on success, `parse_new_flows_from_csv` returns one record per data
row in input order (the `i`-th record parses the `i`-th row at line
`2 + i`), and `parse_node_ids_and_cfs` returns one (id, cf) pair per data
row in input order (the first pair resolves the first row at line 2, the
`i`-th later pair resolves the `i`-th later row at line `3 + i`). -/
theorem c2_one_output_per_data_row {α : Type} (conv : String → Option α)
    (getNode : String → String → Option Nat) (file : CSVFile) :
    (∀ recs, parse_new_flows_from_csv conv file = .ok recs →
      recs.length = file.rows.length ∧
        ∀ (i : Nat) (hi : i < file.rows.length) (hi' : i < recs.length),
          parseFlowRow conv (file.rows.get ⟨i, hi⟩) (2 + i) =
            .ok (recs.get ⟨i, hi'⟩)) ∧
    (∀ pairs, parse_node_ids_and_cfs conv getNode file = .ok pairs →
      pairs.length = file.rows.length ∧
        ∃ first_row rest d p ps,
          file.rows = first_row :: rest ∧ pairs = p :: ps ∧
          rowGet first_row "new_database" (some "") = some d ∧
          resolveRow conv getNode first_row 2 = .ok p ∧
          ps.length = rest.length ∧
          ∀ (i : Nat) (hi : i < rest.length) (hi' : i < ps.length),
            parseNodeRow conv getNode (pyTrim d) (rest.get ⟨i, hi⟩)
                (3 + i) =
              .ok (ps.get ⟨i, hi'⟩)) := by
  constructor
  · intro recs h
    obtain ⟨hm, hrows⟩ := parse_flows_ok_inv conv file recs h
    exact parseFlowRows_spec conv file.rows 2 recs hrows
  · intro pairs h
    obtain ⟨hm, first_row, rest, d, p, ps, hrows, hd, hne, hres, hps, hpairs⟩ :=
      parse_node_ok_inv conv getNode file pairs h
    obtain ⟨hlen, hget⟩ :=
      parseNodeRows_spec conv getNode (pyTrim d) rest 3 ps hps
    refine ⟨?_, first_row, rest, d, p, ps, hrows, hpairs, hd, hres, hlen,
      hget⟩
    rw [hpairs, hrows]
    simp [hlen]

/-- Witness for C2: a two-row file; both parsers return two outputs. -/
theorem c2_witness :
    ∃ (recs : List (FlowRecord Nat)) (pairs : List (Nat × Nat)),
      parse_new_flows_from_csv convEx fileTwo = .ok recs ∧
      recs.length = 2 ∧
      parse_node_ids_and_cfs convEx getNodeEx fileTwo = .ok pairs ∧
      pairs.length = 2 := by
  have hf : parse_new_flows_from_csv convEx fileTwo =
      .ok [{ database := "db", name := "Foo Bar", code := "Foo_Bar",
             unit := "kg", casNumber := "1-2-3",
             categories := ["air", "low urban"], cf := 1 },
           { database := "db", name := "Foo Bar", code := "Foo_Bar",
             unit := "kg", casNumber := "1-2-3",
             categories := ["air", "low urban"], cf := 1 }] := by decide
  have hn : parse_node_ids_and_cfs convEx getNodeEx fileTwo =
      .ok [(7, 1), (7, 1)] := by decide
  obtain ⟨hlen, _⟩ :=
    (c2_one_output_per_data_row convEx getNodeEx fileTwo).1 _ hf
  obtain ⟨hlen2, _⟩ :=
    (c2_one_output_per_data_row convEx getNodeEx fileTwo).2 _ hn
  exact ⟨_, _, hf, hlen.trans (by decide), hn, hlen2.trans (by decide)⟩

/-- C3: for every row of a successful `parse_new_flows_from_csv` run, the
record's code is the trimmed raw code when that is non-empty, and
otherwise the trimmed flow name with every space replaced by an
underscore (and nothing else altered). -/
theorem c3_code_derivation {α : Type} (conv : String → Option α)
    (file : CSVFile) (recs : List (FlowRecord α))
    (h : parse_new_flows_from_csv conv file = .ok recs)
    (i : Nat) (hi : i < file.rows.length) (rc fn : String)
    (hrc : rowGet (file.rows.get ⟨i, hi⟩) "code" (some "") = some rc)
    (hfn : rowGet (file.rows.get ⟨i, hi⟩) "flow_name" (some "") = some fn) :
    ∃ hi' : i < recs.length,
      (recs.get ⟨i, hi'⟩).code =
        if pyTrim rc = "" then replaceSpaces (pyTrim fn) else pyTrim rc := by
  obtain ⟨hm, hrows⟩ := parse_flows_ok_inv conv file recs h
  obtain ⟨hlen, hget⟩ := parseFlowRows_spec conv file.rows 2 recs hrows
  have hi' : i < recs.length := hlen ▸ hi
  refine ⟨hi', ?_⟩
  have hrow := hget i hi hi'
  obtain ⟨cats, cf, fn', rc', db, un, _, _, hfn', hrc', _, _, hrec⟩ :=
    parseFlowRow_ok_inv conv _ _ _ hrow
  rw [hfn] at hfn'
  rw [hrc] at hrc'
  cases hfn'
  cases hrc'
  rw [hrec]
  by_cases hempty : pyTrim rc = ""
  · simp [hempty, sanitize_code, pyTrim_idem]
  · simp [hempty]

/-- Witness for C3: an empty code cell with flow name "Foo Bar" yields
code "Foo_Bar". -/
theorem c3_witness :
    ∃ recs : List (FlowRecord Nat),
      parse_new_flows_from_csv convEx ⟨required_columns, [rowGood]⟩ =
          .ok recs ∧
        ∃ hi' : 0 < recs.length, (recs.get ⟨0, hi'⟩).code = "Foo_Bar" := by
  have hok : parse_new_flows_from_csv convEx ⟨required_columns, [rowGood]⟩ =
      .ok [{ database := "db", name := "Foo Bar", code := "Foo_Bar",
             unit := "kg", casNumber := "1-2-3",
             categories := ["air", "low urban"], cf := 1 }] := by decide
  obtain ⟨hi', hcode⟩ := c3_code_derivation convEx _ _ hok 0 (by decide)
    "" "Foo Bar" (by decide) (by decide)
  exact ⟨_, hok, hi', hcode.trans (by decide)⟩

/-- C5: `parse_node_ids_and_cfs` establishes the database name as the
first data row's trimmed `new_database` value, failing when that is
empty; any loop row whose trimmed `new_database` differs from the
established name fails with the mismatch error citing that row's line
number and both names; and a loop error under the established name is
exactly the function's result once the first row resolves. -/
theorem c5_database_consistency {α : Type} (conv : String → Option α)
    (getNode : String → String → Option Nat) (file : CSVFile)
    (first_row : Row) (rest : List Row) (d : String)
    (hm : missing_columns file.header = [])
    (hrows : file.rows = first_row :: rest)
    (hd : rowGet first_row "new_database" (some "") = some d) :
    (pyTrim d = "" →
      parse_node_ids_and_cfs conv getNode file =
        .error (.valueError dbMissingMsg)) ∧
    (∀ (row : Row) (rows2 : List Row) (ln : Nat) (rd : String),
      rowGet row "new_database" (some "") = some rd →
      pyTrim rd ≠ pyTrim d →
      parseNodeRows conv getNode (pyTrim d) (row :: rows2) ln =
        .error
          (.valueError (dbMismatchMsg ln (pyTrim d) (pyTrim rd)))) ∧
    (∀ p, pyTrim d ≠ "" →
      resolveRow conv getNode first_row 2 = .ok p →
      ∀ e, parseNodeRows conv getNode (pyTrim d) rest 3 = .error e →
        parse_node_ids_and_cfs conv getNode file = .error e) := by
  obtain ⟨header, rows⟩ := file
  simp only at hrows hm
  subst hrows
  refine ⟨fun hempty => ?_, fun row rows2 ln rd hrd hne => ?_,
    fun p hne hres e herr => ?_⟩
  · rw [parse_node_eq_cons conv getNode header first_row rest hm]
    simp only [hd, pyStrip]
    rw [if_pos hempty]
  · simp only [parseNodeRows, parseNodeRow, hrd, pyStrip]
    rw [if_pos hne]
  · rw [parse_node_eq_cons conv getNode header first_row rest hm]
    simp only [hd, pyStrip]
    rw [if_neg hne]
    simp only [hres, herr]

/-- Witness for C5: an empty first-row database name fails; a second row
targeting "other" instead of "db" fails with the line-3 mismatch error
naming both databases. -/
theorem c5_witness :
    parse_node_ids_and_cfs convEx getNodeEx
        ⟨required_columns, [rowEmptyDb]⟩ =
      .error (.valueError dbMissingMsg) ∧
    parseNodeRows convEx getNodeEx "db" [rowOtherDb] 3 =
      .error (.valueError (dbMismatchMsg 3 "db" "other")) ∧
    parse_node_ids_and_cfs convEx getNodeEx
        ⟨required_columns, [rowGood, rowOtherDb]⟩ =
      .error (.valueError (dbMismatchMsg 3 "db" "other")) := by
  refine ⟨?_, ?_, ?_⟩
  · exact (c5_database_consistency convEx getNodeEx
      ⟨required_columns, [rowEmptyDb]⟩ rowEmptyDb [] "  " (by decide) rfl
      rfl).1 (by decide)
  · have h := (c5_database_consistency convEx getNodeEx
      ⟨required_columns, [rowGood, rowOtherDb]⟩ rowGood [rowOtherDb] "db"
      (by decide) rfl rfl).2.1 rowOtherDb [] 3 "other" rfl (by decide)
    exact h.trans (by decide)
  · exact (c5_database_consistency convEx getNodeEx
      ⟨required_columns, [rowGood, rowOtherDb]⟩ rowGood [rowOtherDb] "db"
      (by decide) rfl rfl).2.2 (7, 1) (by decide) (by decide)
      (.valueError (dbMismatchMsg 3 "db" "other")) (by decide)

/-- `parseFlowRow` reads a row only through the seven required columns. -/
theorem parseFlowRow_congr {α : Type} (conv : String → Option α)
    (r1 r2 : Row)
    (hc : ∀ c ∈ required_columns, ∀ dflt,
      rowGet r1 c dflt = rowGet r2 c dflt) (row_index : Nat) :
    parseFlowRow conv r1 row_index = parseFlowRow conv r2 row_index := by
  have h1 := hc "new_database" (by decide)
  have h2 := hc "flow_name" (by decide)
  have h3 := hc "code" (by decide)
  have h4 := hc "unit" (by decide)
  have h5 := hc "CAS number" (by decide)
  have h6 := hc "categories" (by decide)
  have h7 := hc "cf" (by decide)
  simp only [parseFlowRow, h1, h2, h3, h4, h5, h6, h7]

/-- The flow-row loop reads rows only through the required columns. -/
theorem parseFlowRows_congr {α : Type} (conv : String → Option α) :
    ∀ (rows1 rows2 : List Row), rows1.length = rows2.length →
      (∀ (i : Nat) (hi1 : i < rows1.length) (hi2 : i < rows2.length),
        ∀ c ∈ required_columns, ∀ dflt,
          rowGet (rows1.get ⟨i, hi1⟩) c dflt =
            rowGet (rows2.get ⟨i, hi2⟩) c dflt) →
      ∀ row_index,
        parseFlowRows conv rows1 row_index =
          parseFlowRows conv rows2 row_index := by
  intro rows1
  induction rows1 with
  | nil =>
    intro rows2 hlen _ row_index
    cases rows2 with
    | nil => rfl
    | cons _ _ => simp at hlen
  | cons r1 rest1 ih =>
    intro rows2 hlen hc row_index
    cases rows2 with
    | nil => simp at hlen
    | cons r2 rest2 =>
      have hrow := parseFlowRow_congr conv r1 r2
        (hc 0 (by simp) (by simp)) row_index
      have htail := ih rest2 (by simpa using hlen)
        (fun i hi1 hi2 c hcm dflt =>
          hc (i + 1) (by simpa using Nat.succ_lt_succ hi1)
            (by simpa using Nat.succ_lt_succ hi2) c hcm dflt)
        (row_index + 1)
      simp only [parseFlowRows, hrow, htail]

/-- `resolveRow` reads a row only through the required columns. -/
theorem resolveRow_congr {α : Type} (conv : String → Option α)
    (getNode : String → String → Option Nat) (r1 r2 : Row)
    (hc : ∀ c ∈ required_columns, ∀ dflt,
      rowGet r1 c dflt = rowGet r2 c dflt) (row_index : Nat) :
    resolveRow conv getNode r1 row_index =
      resolveRow conv getNode r2 row_index := by
  have h2 := hc "flow_name" (by decide)
  have h3 := hc "code" (by decide)
  have h7 := hc "cf" (by decide)
  simp only [resolveRow, h2, h3, h7]

/-- The node-row loop body reads a row only through the required
columns. -/
theorem parseNodeRow_congr {α : Type} (conv : String → Option α)
    (getNode : String → String → Option Nat) (database_name : String)
    (r1 r2 : Row)
    (hc : ∀ c ∈ required_columns, ∀ dflt,
      rowGet r1 c dflt = rowGet r2 c dflt) (row_index : Nat) :
    parseNodeRow conv getNode database_name r1 row_index =
      parseNodeRow conv getNode database_name r2 row_index := by
  have h1 := hc "new_database" (by decide)
  have hres := resolveRow_congr conv getNode r1 r2 hc row_index
  simp only [parseNodeRow, h1, hres]

/-- The node-row loop reads rows only through the required columns. -/
theorem parseNodeRows_congr {α : Type} (conv : String → Option α)
    (getNode : String → String → Option Nat) :
    ∀ (rows1 rows2 : List Row), rows1.length = rows2.length →
      (∀ (i : Nat) (hi1 : i < rows1.length) (hi2 : i < rows2.length),
        ∀ c ∈ required_columns, ∀ dflt,
          rowGet (rows1.get ⟨i, hi1⟩) c dflt =
            rowGet (rows2.get ⟨i, hi2⟩) c dflt) →
      ∀ (database_name : String) (row_index : Nat),
        parseNodeRows conv getNode database_name rows1 row_index =
          parseNodeRows conv getNode database_name rows2 row_index := by
  intro rows1
  induction rows1 with
  | nil =>
    intro rows2 hlen _ database_name row_index
    cases rows2 with
    | nil => rfl
    | cons _ _ => simp at hlen
  | cons r1 rest1 ih =>
    intro rows2 hlen hc database_name row_index
    cases rows2 with
    | nil => simp at hlen
    | cons r2 rest2 =>
      have hrow := parseNodeRow_congr conv getNode database_name r1 r2
        (hc 0 (by simp) (by simp)) row_index
      have htail := ih rest2 (by simpa using hlen)
        (fun i hi1 hi2 c hcm dflt =>
          hc (i + 1) (by simpa using Nat.succ_lt_succ hi1)
            (by simpa using Nat.succ_lt_succ hi2) c hcm dflt)
        database_name (row_index + 1)
      simp only [parseNodeRows, hrow, htail]

/-- C9: two files agreeing on the presence of the seven required header
columns and on every row's cells at those columns (for any lookup
default) produce equal results — equal outputs or equal errors — from
both operations; extra columns and their values never matter. -/
theorem c9_extra_columns_ignored {α : Type} (conv : String → Option α)
    (getNode : String → String → Option Nat) (file1 file2 : CSVFile)
    (hheader : ∀ c ∈ required_columns, (c ∈ file1.header ↔ c ∈ file2.header))
    (hlen : file1.rows.length = file2.rows.length)
    (hcells : ∀ (i : Nat) (hi1 : i < file1.rows.length)
        (hi2 : i < file2.rows.length),
      ∀ c ∈ required_columns, ∀ dflt,
        rowGet (file1.rows.get ⟨i, hi1⟩) c dflt =
          rowGet (file2.rows.get ⟨i, hi2⟩) c dflt) :
    parse_new_flows_from_csv conv file1 =
        parse_new_flows_from_csv conv file2 ∧
    parse_node_ids_and_cfs conv getNode file1 =
      parse_node_ids_and_cfs conv getNode file2 := by
  have hmiss : missing_columns file1.header = missing_columns file2.header := by
    unfold missing_columns
    apply List.filter_congr
    intro c hcm
    simp [hheader c hcm]
  constructor
  · by_cases hm : missing_columns file1.header = []
    · rw [parse_new_flows_from_csv, parse_new_flows_from_csv, if_pos hm,
        if_pos (hmiss.symm.trans hm),
        parseFlowRows_congr conv file1.rows file2.rows hlen hcells 2]
    · rw [parse_new_flows_from_csv, parse_new_flows_from_csv, if_neg hm,
        if_neg (fun hcontra => hm (hmiss.trans hcontra)), hmiss]
  · by_cases hm : missing_columns file1.header = []
    · obtain ⟨h1, rows1⟩ := file1
      obtain ⟨h2, rows2⟩ := file2
      cases rows1 with
      | nil =>
        cases rows2 with
        | nil =>
          rw [parse_node_eq_nil conv getNode h1 hm,
            parse_node_eq_nil conv getNode h2 (hmiss.symm.trans hm)]
        | cons r2 rest2 => simp at hlen
      | cons r1 rest1 =>
        cases rows2 with
        | nil => simp at hlen
        | cons r2 rest2 =>
          rw [parse_node_eq_cons conv getNode h1 r1 rest1 hm,
            parse_node_eq_cons conv getNode h2 r2 rest2
              (hmiss.symm.trans hm)]
          have hhead : ∀ c ∈ required_columns, ∀ dflt,
              rowGet r1 c dflt = rowGet r2 c dflt :=
            hcells 0 (by simp) (by simp)
          have hdb := hhead "new_database" (by decide) (some "")
          have hres := resolveRow_congr conv getNode r1 r2 hhead 2
          have hrest : ∀ dbn, parseNodeRows conv getNode dbn rest1 3 =
              parseNodeRows conv getNode dbn rest2 3 := fun dbn =>
            parseNodeRows_congr conv getNode rest1 rest2
              (by simpa using hlen)
              (fun i hi1 hi2 c hcm dflt =>
                hcells (i + 1) (by simpa using Nat.succ_lt_succ hi1)
                  (by simpa using Nat.succ_lt_succ hi2) c hcm dflt)
              dbn 3
          simp only [hdb, hres, hrest]
    · rw [parse_node_ids_and_cfs, parse_node_ids_and_cfs, if_neg hm,
        if_neg (fun hcontra => hm (hmiss.trans hcontra)), hmiss]

/-- Witness for C9: adding a `type` column (header and cell) to a
well-formed one-row file changes neither operation's result. -/
theorem c9_witness :
    parse_new_flows_from_csv convEx ⟨required_columns, [rowGood]⟩ =
        parse_new_flows_from_csv convEx
          ⟨required_columns ++ ["type"], [rowGoodType]⟩ ∧
    parse_node_ids_and_cfs convEx getNodeEx
        ⟨required_columns, [rowGood]⟩ =
      parse_node_ids_and_cfs convEx getNodeEx
        ⟨required_columns ++ ["type"], [rowGoodType]⟩ :=
  c9_extra_columns_ignored convEx getNodeEx _ _
    (by decide) (by decide)
    (fun i hi1 hi2 c hcm dflt => by
      have hi0 : i = 0 := by simpa using hi1
      subst hi0
      fin_cases hcm <;> rfl)

/-- A successful `getNodeE` is a successful lookup. -/
theorem getNodeE_ok_inv (getNode : String → String → Option Nat)
    (name code : String) (nodeId : Nat)
    (h : getNodeE getNode name code = .ok nodeId) :
    getNode name code = some nodeId := by
  unfold getNodeE at h
  split at h
  next heq => cases h; exact heq
  next heq => cases h

/-- Inversion of a successful `resolveRow`: the pair in terms of the
row's cells.  No categories are involved. -/
theorem resolveRow_ok_inv {α : Type} (conv : String → Option α)
    (getNode : String → String → Option Nat) (row : Row) (row_index : Nat)
    (p : Nat × α) (h : resolveRow conv getNode row row_index = .ok p) :
    ∃ cf fn rc,
      parse_cf conv (rowGet row "cf" none) row_index = .ok cf ∧
      rowGet row "flow_name" (some "") = some fn ∧
      rowGet row "code" (some "") = some rc ∧
      getNode (pyTrim fn)
          (if pyTrim rc ≠ "" then pyTrim rc
           else sanitize_code (pyTrim fn)) = some p.1 ∧
      p.2 = cf := by
  unfold resolveRow at h
  split at h
  next heq => cases h
  next cf heq =>
    split at h
    next heq2 => cases h
    next flow_name heq2 =>
      split at h
      next heq3 => cases h
      next code_raw heq3 =>
        split at h
        next heq4 => cases h
        next nodeId heq4 =>
          cases h
          obtain ⟨fn, hfn, hfn'⟩ := pyStrip_ok_inv _ _ heq2
          obtain ⟨rc, hrc, hrc'⟩ := pyStrip_ok_inv _ _ heq3
          subst hfn' hrc'
          exact ⟨cf, fn, rc, heq, hfn, hrc,
            getNodeE_ok_inv getNode _ _ _ heq4, rfl⟩

/-- Counterexample to C1 as stated: on a file whose single data row has
malformed categories (`"::"`) and a convertible cf, the Row Parser raises
the categories validation error but the Node Resolver succeeds — it never
parses categories. -/
theorem c1_counterexample :
    parse_new_flows_from_csv convEx ⟨required_columns, [rowCatsBad]⟩ =
        .error (.valueError (catErrMsg 2)) ∧
    parse_node_ids_and_cfs convEx getNodeEx
        ⟨required_columns, [rowCatsBad]⟩ = .ok [(7, 1)] :=
  ⟨by decide, by decide⟩

/-- C1 amended: both operations perform the identical header validation,
and on any row where both succeed the Node Resolver derives the same cf
and looks the node up by exactly the Row Parser's (name, code); but the
Node Resolver does not parse the categories field at all — its per-row
resolution never raises the categories validation error (on a row where
the Row Parser raises that error the Node Resolver can succeed, as the
counterexample shows). -/
theorem c1_header_cf_code_alignment {α : Type} (conv : String → Option α)
    (getNode : String → String → Option Nat) :
    (∀ file : CSVFile, missing_columns file.header ≠ [] →
      parse_new_flows_from_csv conv file =
          .error (.valueError
            (missingColumnsMsg (missing_columns file.header))) ∧
        parse_node_ids_and_cfs conv getNode file =
          .error (.valueError
            (missingColumnsMsg (missing_columns file.header)))) ∧
    (∀ (row : Row) (row_index : Nat) (r : FlowRecord α) (p : Nat × α),
      parseFlowRow conv row row_index = .ok r →
      resolveRow conv getNode row row_index = .ok p →
      p.2 = r.cf ∧ getNode r.name r.code = some p.1) ∧
    (∀ (row : Row) (row_index : Nat) (e : PyErr),
      resolveRow conv getNode row row_index = .error e →
      e ≠ .valueError (catErrMsg row_index)) := by
  refine ⟨fun file hmne => ?_, fun row row_index r p hflow hnode => ?_,
    fun row row_index e herr => ?_⟩
  · constructor
    · rw [parse_new_flows_from_csv, if_neg hmne]
    · rw [parse_node_ids_and_cfs, if_neg hmne]
  · obtain ⟨cats, cff, fnf, rcf, db, un, _, hcff, hfnf, hrcf, _, _, hrec⟩ :=
      parseFlowRow_ok_inv conv row row_index r hflow
    obtain ⟨cfn, fnn, rcn, hcfn, hfnn, hrcn, hlook, hp2⟩ :=
      resolveRow_ok_inv conv getNode row row_index p hnode
    rw [hfnf] at hfnn
    rw [hrcf] at hrcn
    cases hfnn
    cases hrcn
    rw [hcff] at hcfn
    cases hcfn
    subst hrec
    exact ⟨hp2, hlook⟩
  · rcases resolveRow_err_inv conv getNode row row_index e herr with
      hcf | hattr | hlook
    · subst hcf
      intro hcontra
      exact catErr_ne_cfErr row_index
        (PyErr.valueError.inj hcontra).symm
    · subst hattr
      intro hcontra
      cases hcontra
    · subst hlook
      intro hcontra
      cases hcontra

/-- Witness for the amended C1: the shared header error on a `cf`-less
header; on `rowGood` both per-row operations succeed with the same cf
and the Row Parser's (name, code) as the lookup key; on `rowCfBad` the
Node Resolver's error is the cf message, not the categories message. -/
theorem c1_witness :
    parse_node_ids_and_cfs convEx getNodeEx ⟨headerNoCf, []⟩ =
        .error (.valueError
          (missingColumnsMsg (missing_columns headerNoCf))) ∧
    (((7, 1) : Nat × Nat).2 = (1 : Nat) ∧
      getNodeEx "Foo Bar" "Foo_Bar" = some 7) ∧
    (PyErr.valueError (cfErrMsg 2) ≠ .valueError (catErrMsg 2)) := by
  refine ⟨((c1_header_cf_code_alignment convEx getNodeEx).1
    ⟨headerNoCf, []⟩ (by decide)).2, ?_, ?_⟩
  · exact (c1_header_cf_code_alignment convEx getNodeEx).2.1 rowGood 2
      { database := "db", name := "Foo Bar", code := "Foo_Bar",
        unit := "kg", casNumber := "1-2-3",
        categories := ["air", "low urban"], cf := 1 }
      (7, 1) (by decide) (by decide)
  · exact (c1_header_cf_code_alignment convEx getNodeEx).2.2 rowCfBad 2
      (.valueError (cfErrMsg 2)) (by decide)
